import Mathlib

/-!
Shallow embedding of src/preprocess.py (GDC expression preprocessing
pipeline). The per-sample operation process_file (fetch, gzip sniffing,
TSV parsing with comment handling, the N_ row filter, required-column
validation, column extraction), the concurrent batch pipeline, the
matrix aggregation loop, and the tumor/normal grouping of
generate_expression_csvs are translated into executable definitions.
Library behavior that the script relies on (the gzip module's framing,
UTF-8 decoding inside pandas.read_csv, and read_csv's tab/comment
handling) is modelled from the libraries' documented behavior;
cell values are carried as the raw text of each field (the script never
performs arithmetic on them, it only relabels and concatenates columns),
and numeric dtype inference is not modelled: gene identifiers in scope
are non-numeric strings.
-/

deriving instance DecidableEq for Except

/-- A metadata record identifying one downloadable file and its sample:
one row of the frame built by get_rna_seq_metadata (fields
file_id, sample_barcode, file_name, sample_type of preprocess.py lines
87-93; sample_barcode is called sample_id here as in process_file). -/
structure SampleRecord where
  file_id : String
  sample_id : String
  file_name : String
  sample_type : String
deriving DecidableEq

/-- Exception kinds that can arise inside the try-block of process_file:
requests errors (raise_for_status / timeouts), gzip framing errors,
Unicode decoding errors and parse errors inside pandas.read_csv, and
KeyError from the df['gene_id'] access on line 29. -/
inductive PyErr where
  | httpError (msg : String)
  | badGzip
  | unicodeError
  | emptyData
  | parserError
  | keyError (col : String)
deriving DecidableEq

/-- The successfully extracted content for one sample (lines 36-43 of
preprocess.py): the gene axis plus the three measure series, all
relabelled with the sample identifier. Values are kept as the raw cell
text. -/
structure ParsedSample where
  sample_id : String
  gene_ids : List String
  gene_names : List String
  tpm : List String
  fpkm : List String
  fpkm_uq : List String
deriving DecidableEq

/-- Two-byte little-endian encoding. -/
def le16 (n : Nat) : List Nat := [n % 256, n / 256 % 256]

/-- Four-byte little-endian encoding. -/
def le32 (n : Nat) : List Nat :=
  [n % 256, n / 256 % 256, n / 65536 % 256, n / 16777216 % 256]

/-- DEFLATE stream made only of stored (uncompressed) blocks, as a gzip
writer is permitted to emit: each block is a header byte (BFINAL bit and
BTYPE=00), LEN and its one's complement NLEN as little-endian 16-bit
values, then LEN literal bytes. The fuel argument bounds the number of
non-final blocks; callers pass the input length, which is always
sufficient. -/
def deflateStoredAux : Nat → List Nat → List Nat
  | 0, p => 1 :: (le16 p.length ++ le16 (65535 - p.length) ++ p)
  | fuel + 1, p =>
    if p.length ≤ 65535 then
      1 :: (le16 p.length ++ le16 (65535 - p.length) ++ p)
    else
      0 :: (le16 65535 ++ le16 0 ++
        (p.take 65535 ++ deflateStoredAux fuel (p.drop 65535)))

/-- Model of a gzip compressor (single member, stored DEFLATE blocks):
the 10-byte header 1F 8B 08 (magic bytes and CM=deflate) with FLG=0,
MTIME=0, XFL=0, OS=255, then the deflate stream, then the 8-byte
trailer (the 4-byte checksum word, carried here as a placeholder whose
value the model does not compute, and the input length ISIZE). -/
def gzipCompress (p : List Nat) : List Nat :=
  [31, 139, 8, 0, 0, 0, 0, 0, 0, 255] ++ deflateStoredAux p.length p ++
    le32 0 ++ le32 (p.length % 4294967296)

/-- Decode a stored-blocks DEFLATE stream: returns the decompressed data
and the remaining (trailer) bytes, or none when the stream is malformed.
Fueled recursion; callers pass the input length, which is sufficient. -/
def inflateStored : Nat → List Nat → Option (List Nat × List Nat)
  | 0, _ => none
  | fuel + 1, bf :: l0 :: l1 :: n0 :: n1 :: rest =>
    let len := l0 + 256 * l1
    if n0 + 256 * n1 ≠ 65535 - len then none
    else if rest.length < len then none
    else if bf = 1 then some (rest.take len, rest.drop len)
    else if bf = 0 then
      match inflateStored fuel (rest.drop len) with
      | some (d, tail) => some (rest.take len ++ d, tail)
      | none => none
    else none
  | _ + 1, _ => none

/-- Model of the gzip module's decompression (single member, stored
blocks, FLG=0, any MTIME/XFL/OS): checks the magic bytes and
compression-method byte, inflates the deflate stream, and requires the
8-byte trailer, verifying the recorded input length ISIZE; the 4-byte
checksum word is accepted without verification (checksum validation is
not modelled). Any malformation yields none (the library raises
BadGzipFile/EOFError there). -/
def gzipDecompress (p : List Nat) : Option (List Nat) :=
  match p with
  | 31 :: 139 :: 8 :: 0 :: _ :: _ :: _ :: _ :: _ :: _ :: rest =>
    match inflateStored (rest.length + 1) rest with
    | some (data, tail) =>
      match tail with
      | _ :: _ :: _ :: _ :: isz =>
        if isz = le32 (data.length % 4294967296) then some data else none
      | _ => none
    | none => none
  | _ => none

/-- The gzip magic bytes 1F 8B that process_file sniffs for
(preprocess.py line 21). -/
def gzMagic : List Nat := [31, 139]

/-- Lines 20-27 of preprocess.py: decompress exactly when the payload
starts with the gzip magic bytes, otherwise hand the payload through
unchanged; a malformed compressed stream yields none (BadGzipFile is
raised, caught by the enclosing try). -/
def decodePayload (payload : List Nat) : Option (List Nat) :=
  if payload.take 2 = gzMagic then gzipDecompress payload else some payload

/-- Whether a byte is a UTF-8 continuation byte (10xxxxxx). -/
def isCont (b : Nat) : Bool := decide (128 ≤ b ∧ b < 192)

/-- UTF-8 decoding of a byte list into characters, as pandas.read_csv
performs on the raw stream: ASCII bytes pass through, multi-byte
sequences require a valid lead byte and continuation bytes, anything
else is a decoding error (none). Overlong/surrogate rejection is not
modelled; payloads in scope are ASCII or invalid at the lead byte. -/
def utf8DecodeAux : List Nat → Option (List Char)
  | [] => some []
  | b :: rest =>
    if b < 128 then
      (utf8DecodeAux rest).map (fun cs => Char.ofNat b :: cs)
    else if b < 194 then none
    else if b < 224 then
      match rest with
      | c1 :: rest2 =>
        if isCont c1 then
          (utf8DecodeAux rest2).map
            (fun cs => Char.ofNat ((b - 192) * 64 + (c1 - 128)) :: cs)
        else none
      | [] => none
    else if b < 240 then
      match rest with
      | c1 :: c2 :: rest2 =>
        if isCont c1 && isCont c2 then
          (utf8DecodeAux rest2).map
            (fun cs =>
              Char.ofNat ((b - 224) * 4096 + (c1 - 128) * 64 + (c2 - 128)) :: cs)
        else none
      | _ => none
    else if b < 245 then
      match rest with
      | c1 :: c2 :: c3 :: rest2 =>
        if isCont c1 && isCont c2 && isCont c3 then
          (utf8DecodeAux rest2).map
            (fun cs =>
              Char.ofNat ((b - 240) * 262144 + (c1 - 128) * 4096 +
                (c2 - 128) * 64 + (c3 - 128)) :: cs)
        else none
      | _ => none
    else none

/-- UTF-8 decoding of a payload into text, or none on a decoding error
(UnicodeDecodeError inside read_csv, caught by the enclosing try). -/
def utf8Decode (bs : List Nat) : Option String :=
  (utf8DecodeAux bs).map (fun cs => String.mk cs)

/-- Split a character list at every occurrence of the separator; the
separators themselves are dropped. Splitting the empty list yields one
empty piece, like Python text splitting. -/
def splitOnChar (sep : Char) (l : List Char) : List (List Char) :=
  l.foldr
    (fun c acc =>
      match acc with
      | [] => [[c]]
      | cur :: rest => if c = sep then [] :: cur :: rest else (c :: cur) :: rest)
    [[]]

/-- A parsed delimited table: the header (column names) and the data
rows, each a list of cell texts. -/
structure Table where
  header : List String
  rows : List (List String)
deriving DecidableEq

/-- The comment handling of pandas.read_csv(comment='#'): the remainder
of a line from the first '#' onward is not parsed. -/
def stripComment (l : List Char) : List Char :=
  l.takeWhile (fun c => c != '#')

/-- The physical lines of the decoded text. -/
def rawLines (text : String) : List (List Char) :=
  splitOnChar '\n' text.data

/-- The lines read_csv actually parses: comment content is stripped,
and lines that are empty afterwards (blank lines and lines beginning
with '#') are skipped entirely. -/
def keptLines (text : String) : List (List Char) :=
  ((rawLines text).map stripComment).filter (fun l => decide (l ≠ []))

/-- Split one kept line into its tab-separated fields. -/
def tabSplit (l : List Char) : List String :=
  (splitOnChar '\t' l).map (fun f => String.mk f)

/-- Model of pd.read_csv(..., sep='\t', comment='#') (preprocess.py
lines 25/27): the first kept line is the header, the remaining kept
lines are the data rows. A stream with no kept lines raises
EmptyDataError; ragged rows (field count differing from the header) are
modelled as a parse error. -/
def parseTSV (text : String) : Except PyErr Table :=
  match keptLines text with
  | [] => Except.error PyErr.emptyData
  | h :: rest =>
    if (rest.map tabSplit).all (fun row => decide (row.length = (tabSplit h).length)) then
      Except.ok ⟨tabSplit h, rest.map tabSplit⟩
    else Except.error PyErr.parserError

/-- The five required columns of preprocess.py line 31. -/
def requiredColumns : List String :=
  ["gene_id", "gene_name", "tpm_unstranded", "fpkm_unstranded", "fpkm_uq_unstranded"]

/-- Index of a column name in the header. -/
def colIdx (header : List String) (c : String) : Nat :=
  header.findIdx (fun x => x == c)

/-- Cell of a row at a column index. -/
def cellAt (row : List String) (i : Nat) : String := row.getD i ""

/-- Line 29 of preprocess.py: drop the rows whose gene_id starts with
the reserved prefix N_ (summary counters, not genes). -/
def rowFilter (t : Table) : Table :=
  ⟨t.header,
   t.rows.filter
     (fun row => !(List.isPrefixOf ['N', '_'] (cellAt row (colIdx t.header "gene_id")).data))⟩

/-- Project one named column of a table, positionally over its rows. -/
def getCol (t : Table) (c : String) : List String :=
  t.rows.map (fun row => cellAt row (colIdx t.header c))

/-- Lines 36-43 of preprocess.py: extract the gene axis and the three
measure series from the filtered table, labelled with the sample id. -/
def mkParsed (sid : String) (t : Table) : ParsedSample :=
  ⟨sid, getCol t "gene_id", getCol t "gene_name", getCol t "tpm_unstranded",
   getCol t "fpkm_unstranded", getCol t "fpkm_uq_unstranded"⟩

/-- The two non-exceptional ways the try-block of process_file can
finish: a full extraction, or the early "Missing required columns"
return of lines 32-34. -/
inductive TryOut where
  | ok (p : ParsedSample)
  | missingColumns
deriving DecidableEq

/-- Lines 29-43 of preprocess.py, the extraction stage on a parsed
table: the df['gene_id'] access of the row filter raises KeyError when
that column is absent (this happens before the required-column check);
then the five required columns are checked, and on success the columns
are extracted from the filtered table. -/
def extractTry (sid : String) (t : Table) : Except PyErr TryOut :=
  if "gene_id" ∈ t.header then
    if requiredColumns.all (fun c => decide (c ∈ t.header)) then
      Except.ok (TryOut.ok (mkParsed sid (rowFilter t)))
    else Except.ok TryOut.missingColumns
  else Except.error (PyErr.keyError "gene_id")

/-- The try-block of process_file from the fetched payload onward:
gzip sniffing/decoding, text decoding, TSV parsing, then extraction. -/
def payloadTry (sid : String) (payload : List Nat) : Except PyErr TryOut :=
  match decodePayload payload with
  | none => Except.error PyErr.badGzip
  | some data =>
    match utf8Decode data with
    | none => Except.error PyErr.unicodeError
    | some text =>
      match parseTSV text with
      | Except.error e => Except.error e
      | Except.ok t => extractTry sid t

/-- The result of one per-sample invocation as observed by the caller:
the returned series tuple together with which diagnostic was printed.
missingColumns is the "Missing required columns" skip of line 33;
error is the except-clause of lines 44-46. Both return the all-None
tuple. -/
inductive SampleResult where
  | ok (p : ParsedSample)
  | missingColumns
  | error (e : PyErr)
deriving DecidableEq

/-- The except-clause of process_file (lines 44-46): any exception
escaping the try-block is converted into the contained per-sample
failure outcome carrying its diagnostic. -/
def runExcept : Except PyErr TryOut → SampleResult
  | Except.ok (TryOut.ok p) => SampleResult.ok p
  | Except.ok TryOut.missingColumns => SampleResult.missingColumns
  | Except.error e => SampleResult.error e

/-- process_file applied to an already-fetched payload. -/
def processPayload (sid : String) (payload : List Nat) : SampleResult :=
  runExcept (payloadTry sid payload)

/-- The whole try-block of process_file, starting from the network
fetch; the fetch stage is a parameter (file_id to payload or error),
modelling requests.get + raise_for_status with arbitrary behavior. -/
def bodyTry (fetch : String → Except PyErr (List Nat)) (r : SampleRecord) :
    Except PyErr TryOut :=
  match fetch r.file_id with
  | Except.error e => Except.error e
  | Except.ok payload => payloadTry r.sample_id payload

/-- process_file (preprocess.py lines 15-46): the try-block wrapped in
the catch-all except clause. -/
def process_file (fetch : String → Except PyErr (List Nat)) (r : SampleRecord) :
    SampleResult :=
  runExcept (bodyTry fetch r)

/-- The five-component return tuple of process_file as the aggregation
loop of generate_expression_csvs reads it (line 129): the three
labelled series and the two gene-axis lists, each possibly None. -/
structure ProcOut where
  tpm : Option (String × List String)
  fpkm : Option (String × List String)
  fpkm_uq : Option (String × List String)
  gene_ids : Option (List String)
  gene_names : Option (List String)
deriving DecidableEq

/-- The tuple actually returned for each outcome: both failure outcomes
return (None, None, None, None, None). -/
def SampleResult.toTuple : SampleResult → ProcOut
  | SampleResult.ok p =>
    ⟨some (p.sample_id, p.tpm), some (p.sample_id, p.fpkm),
     some (p.sample_id, p.fpkm_uq), some p.gene_ids, some p.gene_names⟩
  | _ => ⟨none, none, none, none, none⟩

/-- Whether a per-sample outcome is a success. -/
def SampleResult.isOk : SampleResult → Bool
  | SampleResult.ok _ => true
  | _ => false

/-- The outcomes the worker pool delivers for a batch, in completion
order: one process_file result per submitted record (lines 120-129).
The completion order is an arbitrary permutation of the submission
order and is quantified in the theorems; the pool size only influences
that order. -/
def pipelineOutcomes (fetch : String → Except PyErr (List Nat))
    (order : List SampleRecord) : List SampleResult :=
  order.map (process_file fetch)

/-- The successful extractions of a result stream, in stream order. -/
def successes (rs : List SampleResult) : List ParsedSample :=
  rs.filterMap
    (fun r => match r with | SampleResult.ok p => some p | _ => none)

/-- The mutable state of the aggregation loop (lines 117-136):
the three growing column lists and the canonical gene axis variables
new_gene_ids / new_gene_names. -/
structure AggState where
  tpm : List (String × List String)
  fpkm : List (String × List String)
  fpkm_uq : List (String × List String)
  geneIds : Option (List String)
  geneNames : Option (List String)

/-- Loop state before any result arrives (lines 117-118). -/
def initAgg : AggState := ⟨[], [], [], none, none⟩

/-- One iteration of the collection loop (lines 128-136): when the
tuple's tpm component is present, append all three series, and record
the gene axis if it is still unset and the tuple carries one. -/
def aggStep (st : AggState) (t : ProcOut) : AggState :=
  match t.tpm with
  | none => st
  | some s =>
    let gid := match st.geneIds, t.gene_ids with
               | none, some g => some g
               | g0, _ => g0
    let gnm := match st.geneIds, t.gene_ids with
               | none, some _ => t.gene_names
               | _, _ => st.geneNames
    ⟨st.tpm ++ [s], st.fpkm ++ [t.fpkm.getD ("", [])],
     st.fpkm_uq ++ [t.fpkm_uq.getD ("", [])], gid, gnm⟩

/-- One finished expression matrix: the canonical gene axis columns and
the per-sample data columns. -/
structure ExpressionMatrix where
  geneIds : List String
  geneNames : List String
  cols : List (String × List String)
deriving DecidableEq

/-- The matrix as written out: gene_id and gene_name are the leading
columns (the two insert(0, ...) calls of lines 147-154), followed by
the sample columns in completion order. -/
def ExpressionMatrix.toTable (m : ExpressionMatrix) : List (String × List String) :=
  ("gene_id", m.geneIds) :: ("gene_name", m.geneNames) :: m.cols

/-- Lines 138-154: with zero collected successes the group yields no
matrices (the empty-group continue of line 138-140); otherwise the
three matrices are built from the collected columns, each with the
canonical gene axis prepended. -/
def finalizeAgg (st : AggState) :
    Option (ExpressionMatrix × ExpressionMatrix × ExpressionMatrix) :=
  if st.tpm = [] then none
  else
    some (⟨st.geneIds.getD [], st.geneNames.getD [], st.tpm⟩,
          ⟨st.geneIds.getD [], st.geneNames.getD [], st.fpkm⟩,
          ⟨st.geneIds.getD [], st.geneNames.getD [], st.fpkm_uq⟩)

/-- Fold the collection loop over a result stream. -/
def aggFold (st : AggState) (rs : List SampleResult) : AggState :=
  rs.foldl (fun s r => aggStep s r.toTuple) st

/-- The whole aggregation of one group's result stream. -/
def aggregate (rs : List SampleResult) :
    Option (ExpressionMatrix × ExpressionMatrix × ExpressionMatrix) :=
  finalizeAgg (aggFold initAgg rs)

/-- One group run: the concurrent pipeline over the group's records (in
some completion order) followed by aggregation. -/
def runGroup (fetch : String → Except PyErr (List Nat))
    (order : List SampleRecord) :
    Option (ExpressionMatrix × ExpressionMatrix × ExpressionMatrix) :=
  aggregate (pipelineOutcomes fetch order)

/-- Python str.lower on the characters of a string. -/
def strLower (s : String) : String := String.mk (s.data.map Char.toLower)

/-- Python substring containment (the in operator /
Series.str.contains with a plain pattern). -/
def strContains (hay needle : String) : Bool :=
  (List.range (hay.data.length + 1)).any
    (fun i => List.isPrefixOf needle.data (hay.data.drop i))

/-- Line 108: the record's sample_type, lowercased, contains tumor. -/
def isTumor (r : SampleRecord) : Bool :=
  strContains (strLower r.sample_type) "tumor"

/-- Line 109: the record's sample_type, lowercased, contains normal. -/
def isNormal (r : SampleRecord) : Bool :=
  strContains (strLower r.sample_type) "normal"

/-- The tumor group of a resolved record set (line 108). -/
def tumorGroup (records : List SampleRecord) : List SampleRecord :=
  records.filter isTumor

/-- The normal group of a resolved record set (line 109). -/
def normalGroup (records : List SampleRecord) : List SampleRecord :=
  records.filter isNormal

/-- All per-sample submissions a site run performs: one per record of
each group, the two groups processed one after the other (line 111). A
record belonging to both groups is submitted once per group. -/
def siteInvocations (records : List SampleRecord) : List SampleRecord :=
  tumorGroup records ++ normalGroup records

/-- The per-group results of one site run: each group's matrices are
computed from that group's records alone (lines 111-154). -/
def groupRuns (fetch : String → Except PyErr (List Nat))
    (records : List SampleRecord) :
    List (String × Option (ExpressionMatrix × ExpressionMatrix × ExpressionMatrix)) :=
  [("tumor", runGroup fetch (tumorGroup records)),
   ("normal", runGroup fetch (normalGroup records))]

/-- ASCII text as a byte payload. -/
def asciiBytes (s : String) : List Nat := s.data.map Char.toNat

/-- A well-formed one-gene TSV payload used as a concrete input. -/
def goodTSV : String :=
  "gene_id\tgene_name\ttpm_unstranded\tfpkm_unstranded\tfpkm_uq_unstranded\nENSG1\tA\t1\t2\t3"

/-- The bytes of goodTSV. -/
def goodBytes : List Nat := asciiBytes goodTSV

/-- The extraction expected from goodTSV for sample S1. -/
def goodSample : ParsedSample := ⟨"S1", ["ENSG1"], ["A"], ["1"], ["2"], ["3"]⟩

/-- A concrete tumor record. -/
def recT : SampleRecord := ⟨"f1", "S1", "file1.tsv", "Primary Tumor"⟩

/-- A concrete normal record. -/
def recN : SampleRecord := ⟨"f2", "S2", "file2.tsv", "Solid Tissue Normal"⟩

/-- A concrete record whose sample_type mentions both groups. -/
def recBoth : SampleRecord := ⟨"f3", "S3", "file3.tsv", "Tumor adjacent Normal"⟩

/-- A concrete record whose sample_type mentions neither group. -/
def recNeither : SampleRecord := ⟨"f4", "S4", "file4.tsv", "Cell Line"⟩

/-- The bytes of a TSV payload that lacks the gene_id column but has
the other four required columns. -/
def c1Bytes : List Nat :=
  asciiBytes "gene_name\ttpm_unstranded\tfpkm_unstranded\tfpkm_uq_unstranded\nA\t1\t2\t3"

/-- A fetch behavior that always delivers goodBytes. -/
def fetchGood : String → Except PyErr (List Nat) := fun _ => Except.ok goodBytes

/-- A fetch behavior where only file f1 succeeds. -/
def fetchMixed : String → Except PyErr (List Nat) :=
  fun fid =>
    if fid = "f1" then Except.ok goodBytes
    else Except.error (PyErr.httpError "timeout")

/-- A parsed table that lacks the gene_id column but has the other four
required columns. -/
def c1Table : Table :=
  ⟨["gene_name", "tpm_unstranded", "fpkm_unstranded", "fpkm_uq_unstranded"],
   [["A", "1", "2", "3"]]⟩

/-- A decoded stream whose data line contains a mid-line '#'. -/
def t7 : String :=
  "gene_id\tgene_name\ttpm_unstranded\tfpkm_unstranded\tfpkm_uq_unstranded\nENSG1\tA\t1\t2\t3#x"

/-- A payload that is itself a gzip file (it begins with 1F 8B). -/
def gzPayload : List Nat := gzipCompress goodBytes

/-- Splitting a count over a predicate and its negation. -/
theorem countP_add_countP_not {α : Type} (p : α → Bool) (l : List α) :
    l.countP p + l.countP (fun a => !(p a)) = l.length := by
  induction l with
  | nil => simp
  | cons a l ih =>
    by_cases h : p a = true <;> simp [List.countP_cons, h] <;> omega

/-- C2: for every fetch behavior and every record, a failure at any
stage of the try-block of process_file (any exception e escaping it) is
caught inside that invocation and converted into the uniform no-result
outcome carrying the diagnostic e, whose returned tuple is the all-None
tuple; and the batch always yields one outcome per submitted record, in
every completion order, so no exception aborts the batch, the group or
the run. -/
theorem c2_failure_containment (fetch : String → Except PyErr (List Nat))
    (r : SampleRecord) (e : PyErr) (order : List SampleRecord)
    (h : bodyTry fetch r = Except.error e) :
    process_file fetch r = SampleResult.error e ∧
    (SampleResult.error e).toTuple = ⟨none, none, none, none, none⟩ ∧
    (pipelineOutcomes fetch order).length = order.length := by
  refine ⟨?_, rfl, by simp [pipelineOutcomes]⟩
  simp [process_file, h, runExcept]

/-- C2 witness: a concrete network failure is contained. -/
theorem c2_witness :
    process_file fetchMixed recN = SampleResult.error (PyErr.httpError "timeout") ∧
    (SampleResult.error (PyErr.httpError "timeout")).toTuple =
      ⟨none, none, none, none, none⟩ ∧
    (pipelineOutcomes fetchMixed [recT, recN]).length = [recT, recN].length :=
  c2_failure_containment fetchMixed recN (PyErr.httpError "timeout") [recT, recN]
    (by decide)

/-- C3: for every fetch behavior, every batch of N records and every
completion order of the worker pool (the pool size influences only that
order), the pipeline yields exactly N outcomes, the number K of
contained per-sample failures is at most N, and exactly N - K
successful results are yielded. -/
theorem c3_batch_counts (fetch : String → Except PyErr (List Nat))
    (records order : List SampleRecord) (h : order.Perm records) :
    (pipelineOutcomes fetch order).length = records.length ∧
    (records.map (process_file fetch)).countP (fun res => !(SampleResult.isOk res)) ≤
      records.length ∧
    (pipelineOutcomes fetch order).countP SampleResult.isOk =
      records.length -
        (records.map (process_file fetch)).countP (fun res => !(SampleResult.isOk res)) := by
  have hm : (pipelineOutcomes fetch order).Perm (records.map (process_file fetch)) :=
    h.map (process_file fetch)
  have hc : (pipelineOutcomes fetch order).countP SampleResult.isOk =
      (records.map (process_file fetch)).countP SampleResult.isOk :=
    hm.countP_eq SampleResult.isOk
  have hsum := countP_add_countP_not SampleResult.isOk (records.map (process_file fetch))
  have hlen : (records.map (process_file fetch)).length = records.length :=
    List.length_map records (process_file fetch)
  refine ⟨?_, by omega, by omega⟩
  simp [pipelineOutcomes, h.length_eq]

/-- C3 witness: two records, one contained failure, one success. -/
theorem c3_witness :
    (pipelineOutcomes fetchMixed [recN, recT]).length = [recT, recN].length ∧
    ([recT, recN].map (process_file fetchMixed)).countP
        (fun res => !(SampleResult.isOk res)) ≤ [recT, recN].length ∧
    (pipelineOutcomes fetchMixed [recN, recT]).countP SampleResult.isOk =
      [recT, recN].length -
        ([recT, recN].map (process_file fetchMixed)).countP
          (fun res => !(SampleResult.isOk res)) :=
  c3_batch_counts fetchMixed [recT, recN] [recN, recT] (by decide)

/-- C8: a record is in the tumor group exactly when it is in the
resolved set and its sample_type contains tumor case-insensitively,
and in the normal group exactly when it contains normal; a record
matching neither substring is in no group; and the site run computes
each group's matrices from that group's records alone. -/
theorem c8_group_membership (records : List SampleRecord) (r : SampleRecord)
    (fetch : String → Except PyErr (List Nat)) :
    (r ∈ tumorGroup records ↔ (r ∈ records ∧ isTumor r = true)) ∧
    (r ∈ normalGroup records ↔ (r ∈ records ∧ isNormal r = true)) ∧
    (isTumor r = false → r ∉ tumorGroup records) ∧
    (isNormal r = false → r ∉ normalGroup records) ∧
    groupRuns fetch records =
      [("tumor", runGroup fetch (tumorGroup records)),
       ("normal", runGroup fetch (normalGroup records))] := by
  refine ⟨?_, ?_, ?_, ?_, rfl⟩
  · simp [tumorGroup, List.mem_filter]
  · simp [normalGroup, List.mem_filter]
  · intro h hmem
    rw [tumorGroup, List.mem_filter] at hmem
    rw [hmem.2] at h
    cases h
  · intro h hmem
    rw [normalGroup, List.mem_filter] at hmem
    rw [hmem.2] at h
    cases h

/-- C8 witness: concrete membership and exclusion facts obtained from
the grouping theorem. -/
theorem c8_witness :
    recT ∈ tumorGroup [recT, recN, recNeither] ∧
    recN ∈ normalGroup [recT, recN, recNeither] ∧
    recNeither ∉ tumorGroup [recT, recN, recNeither] ∧
    recNeither ∉ normalGroup [recT, recN, recNeither] :=
  ⟨((c8_group_membership [recT, recN, recNeither] recT fetchGood).1).mpr (by decide),
   ((c8_group_membership [recT, recN, recNeither] recN fetchGood).2.1).mpr (by decide),
   (c8_group_membership [recT, recN, recNeither] recNeither fetchGood).2.2.1 (by decide),
   (c8_group_membership [recT, recN, recNeither] recNeither fetchGood).2.2.2.1 (by decide)⟩

/-- C10: a record whose sample_type contains both tumor and normal
case-insensitively is placed in both groups, and the site run submits
it (fetch and full per-sample processing) once per group: its
occurrence count among the run's submissions is twice its count in the
resolved set. -/
theorem c10_both_groups (records : List SampleRecord) (r : SampleRecord)
    (h1 : isTumor r = true) (h2 : isNormal r = true) (h3 : r ∈ records) :
    r ∈ tumorGroup records ∧ r ∈ normalGroup records ∧
    (siteInvocations records).countP (fun x => decide (x = r)) =
      2 * records.countP (fun x => decide (x = r)) := by
  refine ⟨List.mem_filter.mpr ⟨h3, h1⟩, List.mem_filter.mpr ⟨h3, h2⟩, ?_⟩
  unfold siteInvocations tumorGroup normalGroup
  rw [List.countP_append]
  have ht : (records.filter isTumor).countP (fun x => decide (x = r)) =
      records.countP (fun x => decide (x = r)) := by
    rw [List.countP_filter]
    apply List.countP_congr
    intro a _
    by_cases har : a = r
    · subst har
      simp [h1]
    · simp [har]
  have hn : (records.filter isNormal).countP (fun x => decide (x = r)) =
      records.countP (fun x => decide (x = r)) := by
    rw [List.countP_filter]
    apply List.countP_congr
    intro a _
    by_cases har : a = r
    · subst har
      simp [h2]
    · simp [har]
  omega

/-- C10 witness: a record typed Tumor adjacent Normal lands in both
groups and is submitted twice. -/
theorem c10_witness :
    recBoth ∈ tumorGroup [recBoth] ∧ recBoth ∈ normalGroup [recBoth] ∧
    (siteInvocations [recBoth]).countP (fun x => decide (x = recBoth)) =
      2 * [recBoth].countP (fun x => decide (x = recBoth)) :=
  c10_both_groups [recBoth] recBoth (by decide) (by decide) (by decide)

/-- C1 (amended): the extraction stage produces the Missing required
columns outcome if and only if the parsed table has a gene_id column
but lacks at least one of the five required columns, regardless of row
content; when gene_id itself is absent, the row filter that runs first
raises KeyError instead, so the outcome is the generic contained
failure. In either case the returned tuple carries no partial
extraction. -/
theorem c1_missing_columns_iff (sid : String) (t : Table) :
    (extractTry sid t = Except.ok TryOut.missingColumns ↔
      ("gene_id" ∈ t.header ∧ ∃ c ∈ requiredColumns, c ∉ t.header)) ∧
    SampleResult.missingColumns.toTuple = ⟨none, none, none, none, none⟩ := by
  refine ⟨?_, rfl⟩
  constructor
  · intro h
    unfold extractTry at h
    split at h
    case isTrue h1 =>
      split at h
      case isTrue h2 => exact absurd h (by simp)
      case isFalse h2 =>
        refine ⟨h1, ?_⟩
        rw [List.all_eq_true] at h2
        push_neg at h2
        obtain ⟨c, hc, hnc⟩ := h2
        exact ⟨c, hc, by simpa using hnc⟩
    case isFalse h1 => exact absurd h (by simp)
  · rintro ⟨h1, c, hc, hnc⟩
    have h2 : ¬ (requiredColumns.all (fun c => decide (c ∈ t.header)) = true) := by
      rw [List.all_eq_true]
      push_neg
      exact ⟨c, hc, by simpa using hnc⟩
    unfold extractTry
    rw [if_pos h1, if_neg h2]

set_option maxRecDepth 8000 in
/-- C1 counterexample: a table that lacks the required column gene_id
(but has the other four) does not produce the Missing required columns
outcome; the per-sample operation instead reports the contained
KeyError failure raised by the row filter that runs before the schema
check. -/
theorem c1_counterexample :
    "gene_id" ∈ requiredColumns ∧
    "gene_id" ∉ c1Table.header ∧
    extractTry "S1" c1Table = Except.error (PyErr.keyError "gene_id") ∧
    processPayload "S1" c1Bytes = SampleResult.error (PyErr.keyError "gene_id") ∧
    processPayload "S1" c1Bytes ≠ SampleResult.missingColumns := by
  decide

/-- C4 (amended): for every payload cp that is a gzip framing of a
logical content pp (it starts with the magic bytes and decompresses to
pp), and every pp that does not itself begin with the gzip magic bytes,
processing the framed payload and processing pp uncompressed produce
identical per-sample output; and the decoder decompresses exactly when
the payload starts with 1F 8B and otherwise passes it through
unchanged. -/
theorem c4_framing_transparency (sid : String) (cp pp q : List Nat)
    (h1 : cp.take 2 = gzMagic) (h2 : gzipDecompress cp = some pp)
    (h3 : ¬ pp.take 2 = gzMagic) :
    processPayload sid cp = processPayload sid pp ∧
    decodePayload q = (if q.take 2 = gzMagic then gzipDecompress q else some q) := by
  refine ⟨?_, rfl⟩
  have e1 : decodePayload cp = some pp := by rw [decodePayload, if_pos h1, h2]
  have e2 : decodePayload pp = some pp := by rw [decodePayload, if_neg h3]
  rw [processPayload, processPayload, payloadTry, payloadTry, e1, e2]

set_option maxRecDepth 8000 in
/-- C4 witness: the gzip framing of the concrete TSV payload and the
plain payload process identically. -/
theorem c4_witness :
    processPayload "S1" (gzipCompress goodBytes) = processPayload "S1" goodBytes ∧
    decodePayload [0] = (if [0].take 2 = gzMagic then gzipDecompress [0] else some [0]) :=
  c4_framing_transparency "S1" (gzipCompress goodBytes) goodBytes [0]
    (by decide) (by decide) (by decide)

set_option maxRecDepth 8000 in
/-- C4 counterexample: for a payload that itself begins with 1F 8B (a
gzip file taken as the logical content), processing its gzip framing
and processing it plain differ: the plain payload is sniffed as
compressed and parses successfully after decompression, while the
framed payload decompresses once to gzip bytes whose text decoding
fails. -/
theorem c4_counterexample :
    (processPayload "S1" gzPayload).isOk = true ∧
    processPayload "S1" (gzipCompress gzPayload) = SampleResult.error PyErr.unicodeError ∧
    processPayload "S1" (gzipCompress gzPayload) ≠ processPayload "S1" gzPayload := by
  decide

/-- Inversion of a successful parse: the header comes from the first
kept line and the rows are exactly the remaining kept lines, in order,
split on tabs. -/
theorem parseTSV_ok (text : String) (t : Table) (ht : parseTSV text = Except.ok t) :
    ∃ h0 rest, keptLines text = h0 :: rest ∧ t.header = tabSplit h0 ∧
      t.rows = rest.map tabSplit := by
  unfold parseTSV at ht
  rcases hk : keptLines text with _ | ⟨h0, rest⟩
  · rw [hk] at ht
    exact absurd ht (by simp)
  · rw [hk] at ht
    simp only [] at ht
    split at ht
    · refine ⟨h0, rest, rfl, ?_, ?_⟩
      · rw [← Except.ok.inj ht]
      · rw [← Except.ok.inj ht]
    · exact absurd ht (by simp)

/-- C7 (amended): the extractor's line handling, as read_csv performs
it: a source line is ignored exactly when it is empty or begins with
the comment marker; every other line is retained only up to (not
including) its first mid-line marker; the kept lines are a sublist of
the comment-stripped source lines (source order, no sorting), and the
parsed rows are exactly the kept lines after the header, in order,
split on tabs. -/
theorem c7_comment_handling (text : String) (l : List Char) (t : Table)
    (hmem : l ∈ rawLines text) (ht : parseTSV text = Except.ok t) :
    (stripComment l = [] ↔ (l = [] ∨ l.head? = some '#')) ∧
    List.Sublist (keptLines text) ((rawLines text).map stripComment) ∧
    (stripComment l ∈ keptLines text ∨ stripComment l = []) ∧
    (∃ h0 rest, keptLines text = h0 :: rest ∧ t.header = tabSplit h0 ∧
      t.rows = rest.map tabSplit) := by
  refine ⟨?_, ?_, ?_, parseTSV_ok text t ht⟩
  · cases l with
    | nil => simp [stripComment]
    | cons c cs =>
      by_cases hc : c = '#'
      · subst hc
        simp [stripComment, List.takeWhile]
      · have hb : (c != '#') = true := by simp [hc]
        simp [stripComment, List.takeWhile, hb, hc]
  · unfold keptLines
    exact List.filter_sublist _
  · by_cases hne : stripComment l = []
    · right
      exact hne
    · left
      unfold keptLines
      refine List.mem_filter.mpr ⟨List.mem_map_of_mem _ hmem, ?_⟩
      simpa using hne

set_option maxRecDepth 8000 in
/-- C7 counterexample: the data line of this stream does not begin with
the comment marker, yet it is not retained in full: the parsed row is
the line truncated at its mid-line marker, which differs from the full
line's tab fields. -/
theorem c7_counterexample :
    "ENSG1\tA\t1\t2\t3#x".data.head? ≠ some '#' ∧
    "ENSG1\tA\t1\t2\t3#x".data ∈ rawLines t7 ∧
    parseTSV t7 =
      Except.ok
        ⟨["gene_id", "gene_name", "tpm_unstranded", "fpkm_unstranded", "fpkm_uq_unstranded"],
         [["ENSG1", "A", "1", "2", "3"]]⟩ ∧
    tabSplit "ENSG1\tA\t1\t2\t3#x".data ≠ ["ENSG1", "A", "1", "2", "3"] := by
  decide

set_option maxRecDepth 8000 in
/-- C7 witness: concrete instantiation on a stream whose data line has
a mid-line marker. -/
theorem c7_witness :
    (stripComment "ENSG1\tA\t1\t2\t3#x".data = [] ↔
      ("ENSG1\tA\t1\t2\t3#x".data = [] ∨ "ENSG1\tA\t1\t2\t3#x".data.head? = some '#')) ∧
    List.Sublist (keptLines t7) ((rawLines t7).map stripComment) ∧
    (stripComment "ENSG1\tA\t1\t2\t3#x".data ∈ keptLines t7 ∨
      stripComment "ENSG1\tA\t1\t2\t3#x".data = []) ∧
    (∃ h0 rest, keptLines t7 = h0 :: rest ∧
      (Table.mk ["gene_id", "gene_name", "tpm_unstranded", "fpkm_unstranded", "fpkm_uq_unstranded"]
        [["ENSG1", "A", "1", "2", "3"]]).header = tabSplit h0 ∧
      (Table.mk ["gene_id", "gene_name", "tpm_unstranded", "fpkm_unstranded", "fpkm_uq_unstranded"]
        [["ENSG1", "A", "1", "2", "3"]]).rows = rest.map tabSplit) :=
  c7_comment_handling t7 "ENSG1\tA\t1\t2\t3#x".data
    ⟨["gene_id", "gene_name", "tpm_unstranded", "fpkm_unstranded", "fpkm_uq_unstranded"],
     [["ENSG1", "A", "1", "2", "3"]]⟩
    (by decide) (by decide)

/-- Inversion of the except-wrapper: a success can only come from the
try-block finishing with a full extraction. -/
theorem runExcept_eq_ok (res : Except PyErr TryOut) (p : ParsedSample)
    (h : runExcept res = SampleResult.ok p) : res = Except.ok (TryOut.ok p) := by
  match res with
  | Except.ok (TryOut.ok q) =>
    simp only [runExcept, SampleResult.ok.injEq] at h
    rw [h]
  | Except.ok TryOut.missingColumns => simp [runExcept] at h
  | Except.error e => simp [runExcept] at h

/-- Inversion of the extraction stage: a successful extraction is
exactly the column projection of the filtered table. -/
theorem extractTry_eq_ok (sid : String) (t : Table) (p : ParsedSample)
    (h : extractTry sid t = Except.ok (TryOut.ok p)) :
    p = mkParsed sid (rowFilter t) := by
  unfold extractTry at h
  split at h
  · split at h
    · exact (TryOut.ok.inj (Except.ok.inj h)).symm
    · exact absurd h (by simp)
  · exact absurd h (by simp)

/-- Inversion of the payload stages: a successful extraction from a
payload factors through the extraction stage on some parsed table. -/
theorem payloadTry_eq_ok (sid : String) (payload : List Nat) (p : ParsedSample)
    (h : payloadTry sid payload = Except.ok (TryOut.ok p)) :
    ∃ t : Table, extractTry sid t = Except.ok (TryOut.ok p) := by
  unfold payloadTry at h
  rcases hd : decodePayload payload with _ | data
  · rw [hd] at h
    exact absurd h (by simp)
  · rw [hd] at h
    simp only [] at h
    rcases hu : utf8Decode data with _ | text
    · rw [hu] at h
      exact absurd h (by simp)
    · rw [hu] at h
      simp only [] at h
      rcases hp : parseTSV text with e | tb
      · rw [hp] at h
        exact absurd h (by simp)
      · rw [hp] at h
        exact ⟨tb, h⟩

/-- C5: every successful per-sample extraction has its five sequences
(gene_ids, gene_names, tpm, fpkm, fpkm_uq) of equal length, and all
five are positional projections of the rows of one filtered table, so
they share positional correspondence to the same rows. -/
theorem c5_parsed_lengths (fetch : String → Except PyErr (List Nat))
    (r : SampleRecord) (p : ParsedSample)
    (h : process_file fetch r = SampleResult.ok p) :
    p.gene_ids.length = p.gene_names.length ∧
    p.gene_names.length = p.tpm.length ∧
    p.tpm.length = p.fpkm.length ∧
    p.fpkm.length = p.fpkm_uq.length ∧
    ∃ t : Table, p = mkParsed r.sample_id t ∧ p.gene_ids.length = t.rows.length := by
  have hb : bodyTry fetch r = Except.ok (TryOut.ok p) := runExcept_eq_ok _ p h
  unfold bodyTry at hb
  rcases hf : fetch r.file_id with e | payload
  · rw [hf] at hb
    exact absurd hb (by simp)
  · rw [hf] at hb
    obtain ⟨t, htx⟩ := payloadTry_eq_ok _ _ _ hb
    have hp := extractTry_eq_ok _ _ _ htx
    subst hp
    exact ⟨by simp [mkParsed, getCol], by simp [mkParsed, getCol],
      by simp [mkParsed, getCol], by simp [mkParsed, getCol],
      rowFilter t, rfl, by simp [mkParsed, getCol]⟩

set_option maxRecDepth 8000 in
/-- C5 witness: the concrete one-gene extraction. -/
theorem c5_witness :
    goodSample.gene_ids.length = goodSample.gene_names.length ∧
    goodSample.gene_names.length = goodSample.tpm.length ∧
    goodSample.tpm.length = goodSample.fpkm.length ∧
    goodSample.fpkm.length = goodSample.fpkm_uq.length ∧
    ∃ t : Table, goodSample = mkParsed recT.sample_id t ∧
      goodSample.gene_ids.length = t.rows.length :=
  c5_parsed_lengths fetchGood recT goodSample (by decide)

/-- Successes of a stream starting with a success. -/
theorem successes_cons_ok (p : ParsedSample) (rs : List SampleResult) :
    successes (SampleResult.ok p :: rs) = p :: successes rs := rfl

/-- Successes of a stream starting with a missing-columns skip. -/
theorem successes_cons_mc (rs : List SampleResult) :
    successes (SampleResult.missingColumns :: rs) = successes rs := rfl

/-- Successes of a stream starting with a contained error. -/
theorem successes_cons_err (e : PyErr) (rs : List SampleResult) :
    successes (SampleResult.error e :: rs) = successes rs := rfl

/-- One collection-loop step on a success: all three series are
appended together, and the gene axis is recorded if still unset. -/
theorem aggStep_ok (st : AggState) (p : ParsedSample) :
    aggStep st (SampleResult.ok p).toTuple =
      ⟨st.tpm ++ [(p.sample_id, p.tpm)], st.fpkm ++ [(p.sample_id, p.fpkm)],
       st.fpkm_uq ++ [(p.sample_id, p.fpkm_uq)],
       (if st.geneIds.isSome then st.geneIds else some p.gene_ids),
       (if st.geneIds.isSome then st.geneNames else some p.gene_names)⟩ := by
  rcases st with ⟨a, b, c, gi, gn⟩
  cases gi <;> simp [aggStep, SampleResult.toTuple]

/-- One collection-loop step on a missing-columns skip leaves the state
unchanged. -/
theorem aggStep_mc (st : AggState) :
    aggStep st SampleResult.missingColumns.toTuple = st := rfl

/-- One collection-loop step on a contained error leaves the state
unchanged. -/
theorem aggStep_err (st : AggState) (e : PyErr) :
    aggStep st (SampleResult.error e).toTuple = st := rfl

/-- Characterization of the collection loop over a whole result
stream: the three column lists receive exactly the successes, in
stream order, and the recorded gene axis is the first success's axis
when the state starts without one. -/
theorem aggFold_spec (rs : List SampleResult) (st : AggState) :
    (aggFold st rs).tpm = st.tpm ++ (successes rs).map (fun p => (p.sample_id, p.tpm)) ∧
    (aggFold st rs).fpkm = st.fpkm ++ (successes rs).map (fun p => (p.sample_id, p.fpkm)) ∧
    (aggFold st rs).fpkm_uq =
      st.fpkm_uq ++ (successes rs).map (fun p => (p.sample_id, p.fpkm_uq)) ∧
    (aggFold st rs).geneIds = (if st.geneIds.isSome then st.geneIds
      else ((successes rs).head?).map (fun p => p.gene_ids)) ∧
    (aggFold st rs).geneNames = (if st.geneIds.isSome then st.geneNames
      else Option.elim ((successes rs).head?) st.geneNames (fun p => some p.gene_names)) := by
  induction rs generalizing st with
  | nil =>
    rcases st with ⟨a, b, c, gi, gn⟩
    cases gi <;> simp [aggFold, successes]
  | cons r rs ih =>
    have hfold : aggFold st (r :: rs) = aggFold (aggStep st r.toTuple) rs := rfl
    cases r with
    | missingColumns =>
      rw [hfold, aggStep_mc, successes_cons_mc]
      exact ih st
    | error e =>
      rw [hfold, aggStep_err, successes_cons_err]
      exact ih st
    | ok p =>
      rw [hfold, aggStep_ok, successes_cons_ok]
      obtain ⟨e1, e2, e3, e4, e5⟩ :=
        ih ⟨st.tpm ++ [(p.sample_id, p.tpm)], st.fpkm ++ [(p.sample_id, p.fpkm)],
            st.fpkm_uq ++ [(p.sample_id, p.fpkm_uq)],
            (if st.geneIds.isSome then st.geneIds else some p.gene_ids),
            (if st.geneIds.isSome then st.geneNames else some p.gene_names)⟩
      cases hgi : st.geneIds with
      | none =>
        simp only [hgi, Option.isSome_none, Bool.false_eq_true, if_false] at e1 e2 e3 e4 e5 ⊢
        simp only [Option.isSome_some, if_true] at e4 e5
        refine ⟨?_, ?_, ?_, ?_, ?_⟩
        · rw [e1]
          simp
        · rw [e2]
          simp
        · rw [e3]
          simp
        · rw [e4]
          simp
        · rw [e5]
          simp
      | some g =>
        simp only [hgi, Option.isSome_some, if_true] at e1 e2 e3 e4 e5 ⊢
        refine ⟨?_, ?_, ?_, ?_, ?_⟩
        · rw [e1]
          simp
        · rw [e2]
          simp
        · rw [e3]
          simp
        · rw [e4]
        · rw [e5]

/-- C6: aggregation over a result stream with zero successes reports
the empty-group outcome (no matrices); over exactly one success, each
of the three matrices written out has gene_id and gene_name as its
leading columns, carrying that single sample's gene axis exactly,
followed by exactly one sample column holding that sample's series. -/
theorem c6_zero_and_one_success (rs0 rs1 : List SampleResult) (p : ParsedSample)
    (h0 : successes rs0 = []) (h1 : successes rs1 = [p]) :
    aggregate rs0 = none ∧
    ∃ m1 m2 m3, aggregate rs1 = some (m1, m2, m3) ∧
      m1.toTable =
        [("gene_id", p.gene_ids), ("gene_name", p.gene_names), (p.sample_id, p.tpm)] ∧
      m2.toTable =
        [("gene_id", p.gene_ids), ("gene_name", p.gene_names), (p.sample_id, p.fpkm)] ∧
      m3.toTable =
        [("gene_id", p.gene_ids), ("gene_name", p.gene_names), (p.sample_id, p.fpkm_uq)] := by
  obtain ⟨t0, _, _, _, _⟩ := aggFold_spec rs0 initAgg
  obtain ⟨t1, f1, q1, g1, n1⟩ := aggFold_spec rs1 initAgg
  constructor
  · have hempty : (aggFold initAgg rs0).tpm = [] := by
      rw [t0, h0]
      simp [initAgg]
    simp [aggregate, finalizeAgg, hempty]
  · have ht : (aggFold initAgg rs1).tpm = [(p.sample_id, p.tpm)] := by
      rw [t1, h1]
      simp [initAgg]
    have hf : (aggFold initAgg rs1).fpkm = [(p.sample_id, p.fpkm)] := by
      rw [f1, h1]
      simp [initAgg]
    have hq : (aggFold initAgg rs1).fpkm_uq = [(p.sample_id, p.fpkm_uq)] := by
      rw [q1, h1]
      simp [initAgg]
    have hg : (aggFold initAgg rs1).geneIds = some p.gene_ids := by
      rw [g1, h1]
      simp [initAgg]
    have hn : (aggFold initAgg rs1).geneNames = some p.gene_names := by
      rw [n1, h1]
      simp [initAgg]
    refine ⟨⟨p.gene_ids, p.gene_names, [(p.sample_id, p.tpm)]⟩,
            ⟨p.gene_ids, p.gene_names, [(p.sample_id, p.fpkm)]⟩,
            ⟨p.gene_ids, p.gene_names, [(p.sample_id, p.fpkm_uq)]⟩, ?_, rfl, rfl, rfl⟩
    simp [aggregate, finalizeAgg, ht, hf, hq, hg, hn]

/-- C6 witness: a stream with one contained failure and no successes,
and a stream with exactly one concrete success. -/
theorem c6_witness :
    aggregate [SampleResult.error PyErr.badGzip] = none ∧
    ∃ m1 m2 m3, aggregate [SampleResult.ok goodSample] = some (m1, m2, m3) ∧
      m1.toTable =
        [("gene_id", goodSample.gene_ids), ("gene_name", goodSample.gene_names),
         (goodSample.sample_id, goodSample.tpm)] ∧
      m2.toTable =
        [("gene_id", goodSample.gene_ids), ("gene_name", goodSample.gene_names),
         (goodSample.sample_id, goodSample.fpkm)] ∧
      m3.toTable =
        [("gene_id", goodSample.gene_ids), ("gene_name", goodSample.gene_names),
         (goodSample.sample_id, goodSample.fpkm_uq)] :=
  c6_zero_and_one_success [SampleResult.error PyErr.badGzip]
    [SampleResult.ok goodSample] goodSample (by decide) (by decide)

/-- A tuple's tpm component is present exactly on a success outcome. -/
theorem toTuple_tpm_isSome (r : SampleResult) :
    (SampleResult.toTuple r).tpm.isSome = SampleResult.isOk r := by
  cases r <;> rfl

/-- The number of successes of a stream. -/
theorem successes_length_isOk (rs : List SampleResult) :
    (successes rs).length = rs.countP SampleResult.isOk := by
  induction rs with
  | nil => rfl
  | cons r rs ih =>
    cases r <;> simp [successes_cons_ok, successes_cons_mc, successes_cons_err,
      List.countP_cons, SampleResult.isOk, ih]

/-- Counting results whose tuple has a tpm component is counting
successes. -/
theorem successes_countP (rs : List SampleResult) :
    (successes rs).length = rs.countP (fun r => (SampleResult.toTuple r).tpm.isSome) ∧
    rs.countP (fun r => (SampleResult.toTuple r).tpm.isSome) = rs.countP SampleResult.isOk := by
  have hc : rs.countP (fun r => (SampleResult.toTuple r).tpm.isSome) =
      rs.countP SampleResult.isOk :=
    List.countP_congr (fun a _ => by rw [toTuple_tpm_isSome a])
  exact ⟨by rw [hc, successes_length_isOk], hc⟩

/-- C9: whenever a group run produces matrices, the three matrices
carry identical sample-column labels in identical order (the successes'
sample ids, in stream order, appended atomically per success), their
common sample-column count is the number of successes, and a result
counts as a success exactly when its returned tuple's tpm component is
present. -/
theorem c9_three_matrices_aligned (rs : List SampleResult) (m1 m2 m3 : ExpressionMatrix)
    (h : aggregate rs = some (m1, m2, m3)) :
    m1.cols.map Prod.fst = (successes rs).map (fun p => p.sample_id) ∧
    m2.cols.map Prod.fst = (successes rs).map (fun p => p.sample_id) ∧
    m3.cols.map Prod.fst = (successes rs).map (fun p => p.sample_id) ∧
    m1.cols.length = (successes rs).length ∧
    m2.cols.length = (successes rs).length ∧
    m3.cols.length = (successes rs).length ∧
    (successes rs).length = rs.countP (fun r => (SampleResult.toTuple r).tpm.isSome) ∧
    rs.countP (fun r => (SampleResult.toTuple r).tpm.isSome) = rs.countP SampleResult.isOk := by
  obtain ⟨t1, f1, q1, _, _⟩ := aggFold_spec rs initAgg
  unfold aggregate finalizeAgg at h
  split at h
  · exact absurd h (by simp)
  · simp only [Option.some.injEq, Prod.mk.injEq] at h
    obtain ⟨h1, h2, h3⟩ := h
    subst h1 h2 h3
    refine ⟨?_, ?_, ?_, ?_, ?_, ?_, (successes_countP rs).1, (successes_countP rs).2⟩
    · rw [t1]
      simp [initAgg, List.map_map, Function.comp_def]
    · rw [f1]
      simp [initAgg, List.map_map, Function.comp_def]
    · rw [q1]
      simp [initAgg, List.map_map, Function.comp_def]
    · rw [t1]
      simp [initAgg]
    · rw [f1]
      simp [initAgg]
    · rw [q1]
      simp [initAgg]

/-- C9 witness: the concrete one-success aggregation. -/
theorem c9_witness :
    (ExpressionMatrix.mk ["ENSG1"] ["A"] [("S1", ["1"])]).cols.map Prod.fst =
      (successes [SampleResult.ok goodSample]).map (fun p => p.sample_id) ∧
    (ExpressionMatrix.mk ["ENSG1"] ["A"] [("S1", ["2"])]).cols.map Prod.fst =
      (successes [SampleResult.ok goodSample]).map (fun p => p.sample_id) ∧
    (ExpressionMatrix.mk ["ENSG1"] ["A"] [("S1", ["3"])]).cols.map Prod.fst =
      (successes [SampleResult.ok goodSample]).map (fun p => p.sample_id) ∧
    (ExpressionMatrix.mk ["ENSG1"] ["A"] [("S1", ["1"])]).cols.length =
      (successes [SampleResult.ok goodSample]).length ∧
    (ExpressionMatrix.mk ["ENSG1"] ["A"] [("S1", ["2"])]).cols.length =
      (successes [SampleResult.ok goodSample]).length ∧
    (ExpressionMatrix.mk ["ENSG1"] ["A"] [("S1", ["3"])]).cols.length =
      (successes [SampleResult.ok goodSample]).length ∧
    (successes [SampleResult.ok goodSample]).length =
      [SampleResult.ok goodSample].countP
        (fun r => (SampleResult.toTuple r).tpm.isSome) ∧
    [SampleResult.ok goodSample].countP
        (fun r => (SampleResult.toTuple r).tpm.isSome) =
      [SampleResult.ok goodSample].countP SampleResult.isOk :=
  c9_three_matrices_aligned [SampleResult.ok goodSample]
    ⟨["ENSG1"], ["A"], [("S1", ["1"])]⟩ ⟨["ENSG1"], ["A"], [("S1", ["2"])]⟩
    ⟨["ENSG1"], ["A"], [("S1", ["3"])]⟩ (by decide)
